import Mathlib

/-!
Verification of the channels-mqtt-proxy core (chanmqttproxy/channelsmqttproxy.py).

The embedding models:
* `topic_matches_sub` — the character-position topic/filter matching automaton
  (a copy of the paho-mqtt algorithm), as a recursion over the remaining
  characters of the subscription filter and of the topic;
* the subscription registry (`subscriptions` dict: topic filter to list of
  groups) with `subscribe`, `unsubscribe`, `groups_matching_topic`;
* the inbound message handler `_on_message` (retained-message drop, UTF-8
  decode, JSON-or-raw payload, fan-out);
* the connect retry loop's backoff behaviour and `publish` defaults.

Python exceptions are modelled as an explicit `Option PyError` component of
the result; the object state (`self.subscriptions`) is passed explicitly, and
calls on the broker client (`self.mqtt`) are recorded as a list of
`MqttAction`s.
-/

set_option autoImplicit false

namespace ChanMqtt

/-! ## TopicMatcher: `topic_matches_sub` (lines 261-322 of the source)

The Python while-loop walks positions `spos`/`tpos`; we recurse on the
remaining character lists.  `result` starts `True` and is only changed in
branches that also `break`, so a normal loop exit returns `True` iff both
strings are exhausted; the breaks are translated into early returns.
-/

/-- The body of the while loop of `topic_matches_sub`, recursing over the
remaining filter characters and remaining topic characters.  The first two
arms are the loop-exit condition (`spos < slen and tpos < tlen` fails):
the final check `not multilevel_wildcard and (tpos < tlen or spos < slen)`
turns the initial `result = True` into `False` unless both are exhausted. -/
def tmsLoop : List Char → List Char → Bool
  | [], t => t.isEmpty
  | _ :: _, [] => false
  | sc :: s1, tc :: t1 =>
    if sc = tc then
      -- "Check for e.g. foo matching foo/#" (tpos == tlen-1, remaining sub is "x/#")
      if t1 = [] ∧ s1 = ['/', '#'] then true
      -- after advancing both: trailing '+' at end of topic matches
      else if t1 = [] ∧ s1 = ['+'] then true
      else tmsLoop s1 t1
    else if sc = '+' then
      -- '+' consumes the rest of the current topic segment
      let t2 := (tc :: t1).dropWhile (fun c => c ≠ '/')
      if t2 = [] ∧ s1 = [] then true
      else tmsLoop s1 t2
    else if sc = '#' then
      -- '#' must be the final filter character; it then matches everything
      s1.isEmpty
    else
      false

/-- The `$`-prefix guard (lines 274-276) followed by the loop: a filter whose
first character is `$` never matches a topic whose first character is not,
and vice versa. -/
def tmsCheck (s t : List Char) : Bool :=
  match s, t with
  | sc :: s1, tc :: t1 =>
    if (sc = '$' ∧ tc ≠ '$') ∨ (tc = '$' ∧ sc ≠ '$') then false
    else tmsLoop (sc :: s1) (tc :: t1)
  | s0, t0 => tmsLoop s0 t0

/-- Embeds `ChannelsMQTTProxy.topic_matches_sub(sub, topic)`. -/
def topic_matches_sub (sub topic : String) : Bool :=
  tmsCheck sub.data topic.data

/-! ### Matcher lemmas -/

theorem tmsCheck_cons (sc tc : Char) (s1 t1 : List Char) :
    tmsCheck (sc :: s1) (tc :: t1) =
      if (sc = '$' ∧ tc ≠ '$') ∨ (tc = '$' ∧ sc ≠ '$') then false
      else tmsLoop (sc :: s1) (tc :: t1) := rfl

theorem tmsLoop_self (l : List Char) : tmsLoop l l = true := by
  induction l with
  | nil => rfl
  | cons c l ih =>
    have h1 : ¬ (l = ([] : List Char) ∧ l = ['/', '#']) := by
      rintro ⟨rfl, h⟩; simp at h
    have h2 : ¬ (l = ([] : List Char) ∧ l = ['+']) := by
      rintro ⟨rfl, h⟩; simp at h
    simp [tmsLoop, h1, h2, ih]

theorem tmsCheck_self (l : List Char) : tmsCheck l l = true := by
  cases l with
  | nil => rfl
  | cons c l =>
    have : ¬ ((c = '$' ∧ c ≠ '$') ∨ (c = '$' ∧ c ≠ '$')) := by
      rintro (⟨h, h2⟩ | ⟨h, h2⟩) <;> exact h2 h
    simp [tmsCheck, this, tmsLoop_self]

theorem tmsLoop_append_hash (l : List Char) (h : l ≠ []) :
    tmsLoop (l ++ ['/', '#']) l = true := by
  induction l with
  | nil => exact absurd rfl h
  | cons c l ih =>
    cases l with
    | nil => simp [tmsLoop]
    | cons d l2 =>
      have hne : d :: l2 ≠ ([] : List Char) := by simp
      have h1 : ¬ (d :: l2 = ([] : List Char) ∧ (d :: l2) ++ ['/', '#'] = ['/', '#']) := by
        rintro ⟨h3, _⟩; exact hne h3
      have h2 : ¬ (d :: l2 = ([] : List Char) ∧ (d :: l2) ++ ['/', '#'] = ['+']) := by
        rintro ⟨h3, _⟩; exact hne h3
      simpa [tmsLoop, h1, h2] using ih hne

/-- C5: For every topic string t, matches(t, t) = true — a filter equal to
the topic verbatim always self-matches, with no wildcards needed. -/
theorem c5_exact_filter_self_matches (t : String) :
    topic_matches_sub t t = true :=
  tmsCheck_self t.data

/-- C4: For every non-empty filter and non-empty topic where exactly one of
the two has a dollar sign as its first character, matches(filter, topic) is
false; in particular matches("+/+", "$SYS/broker") = false while
matches("$SYS/#", "$SYS/broker") = true. -/
theorem c4_dollar_boundary :
    (∀ sub topic : String, sub ≠ "" → topic ≠ "" →
      ((sub.data.head? = some '$') ↔ ¬ (topic.data.head? = some '$')) →
      topic_matches_sub sub topic = false)
    ∧ topic_matches_sub "+/+" "$SYS/broker" = false
    ∧ topic_matches_sub "$SYS/#" "$SYS/broker" = true := by
  refine ⟨?_, by decide, by decide⟩
  intro sub topic hs ht hx
  match h1 : sub.data, h2 : topic.data with
  | [], _ =>
    exact absurd (String.ext (h1.trans rfl)) hs
  | _ :: _, [] =>
    exact absurd (String.ext (h2.trans rfl)) ht
  | sc :: s1, tc :: t1 =>
    rw [h1, h2] at hx
    simp only [List.head?_cons, Option.some.injEq] at hx
    unfold topic_matches_sub
    rw [h1, h2, tmsCheck_cons]
    by_cases hsc : sc = '$'
    · rw [if_pos (Or.inl ⟨hsc, hx.mp hsc⟩)]
    · have htc : tc = '$' := by
        by_contra htc
        exact hsc (hx.mpr htc)
      rw [if_pos (Or.inr ⟨htc, hsc⟩)]

/-- C6: For every non-empty wildcard-free topic t, the filter t ++ "/#"
matches t itself (the multi-level wildcard absorbs an empty remainder);
in particular matches("sport/tennis/#", "sport/tennis") = true and
matches("sport/tennis/#", "sport/tennis/player1") = true. -/
theorem c6_hash_absorbs_empty_remainder :
    (∀ t : String, t ≠ "" → (∀ c ∈ t.data, c ≠ '+' ∧ c ≠ '#') →
      topic_matches_sub (t ++ "/#") t = true)
    ∧ topic_matches_sub "sport/tennis/#" "sport/tennis" = true
    ∧ topic_matches_sub "sport/tennis/#" "sport/tennis/player1" = true := by
  refine ⟨?_, by decide, by decide⟩
  intro t hne _
  have hdata : (t ++ "/#").data = t.data ++ ['/', '#'] := rfl
  unfold topic_matches_sub
  rw [hdata]
  match h1 : t.data with
  | [] => exact absurd (String.ext (h1.trans rfl)) hne
  | c :: l =>
    have hd : ¬ ((c = '$' ∧ c ≠ '$') ∨ (c = '$' ∧ c ≠ '$')) := by
      rintro (⟨h, h2⟩ | ⟨h, h2⟩) <;> exact h2 h
    have := tmsLoop_append_hash (c :: l) (by simp)
    simpa [tmsCheck, hd] using this

/-! ## SubscriptionRegistry: `subscriptions` dict, `subscribe`, `unsubscribe`,
`groups_matching_topic` (lines 202-258)

`self.subscriptions` is a Python dict from topic filter to a list of group
names; we model it as an association list preserving dict insertion order
(assignment to a fresh key appends at the end, assignment to an existing key
keeps its position).  Calls on the broker client are recorded as
`MqttAction`s, and a raised Python exception is the `some`-case of an
`Option PyError` result component. -/

/-- A call made on the gmqtt client object `self.mqtt`. -/
inductive MqttAction where
  | subscribe (topic : String)
  | unsubscribe (topic : String)
  | publish (topic payload : String) (qos : Nat) (retain : Bool)
deriving DecidableEq, Repr

/-- A Python exception raised by the modelled code. -/
inductive PyError where
  /-- AttributeError: list object has no attribute delete -/
  | attributeError
  /-- UnicodeDecodeError from bytes.decode("utf-8") -/
  | unicodeDecodeError
deriving DecidableEq, Repr

/-- The `self.subscriptions` dict: topic filter to list of subscribed groups. -/
abbrev Subscriptions := List (String × List String)

/-- Dict lookup: `d[k]` / `k in d`. -/
def dictGet (d : Subscriptions) (k : String) : Option (List String) :=
  match d with
  | [] => none
  | (k1, v) :: rest => if k1 = k then some v else dictGet rest k

/-- Dict assignment `d[k] = v`: an existing key keeps its position, a fresh
key is appended at the end (Python dict insertion order). -/
def dictSet (d : Subscriptions) (k : String) (v : List String) : Subscriptions :=
  match d with
  | [] => [(k, v)]
  | (k1, v1) :: rest => if k1 = k then (k, v) :: rest else (k1, v1) :: dictSet rest k v

/-- Embeds `ChannelsMQTTProxy.subscribe(topic, group)` (lines 202-220): a fresh
filter gets an empty entry and a broker-level subscribe, then the group is
appended; an already-present group is a no-op. -/
def subscribe (subs : Subscriptions) (topic group : String) :
    Subscriptions × List MqttAction :=
  match dictGet subs topic with
  | none =>
    let subs1 := dictSet subs topic []
    (dictSet subs1 topic [group], [MqttAction.subscribe topic])
  | some gs =>
    if group ∈ gs then (subs, [])
    else (dictSet subs topic (gs ++ [group]), [])

/-- Embeds `ChannelsMQTTProxy.unsubscribe(topic, group)` (lines 225-238).  When the
group is present the source executes `groups.delete(topic)`, but Python
lists have no `delete` method, so an AttributeError is raised before any
state changes; no branch ever deletes the dict entry for the filter. -/
def unsubscribe (subs : Subscriptions) (topic group : String) :
    Subscriptions × List MqttAction × Option PyError :=
  match dictGet subs topic with
  | some gs =>
    if group ∈ gs then
      (subs, [], some PyError.attributeError)
    else if gs.length = 0 then
      (subs, [MqttAction.unsubscribe topic], none)
    else
      (subs, [], none)
  | none => (subs, [], none)

/-- Membership-guarded insertion: `set.add` / element-wise `set.update`
semantics for the Python `set` of groups, as an ordered duplicate-free
list. -/
def setAdd (acc : List String) (g : String) : List String :=
  if g ∈ acc then acc else acc ++ [g]

/-- Models `groups.update(gs)`: add each element of `gs` to the set. -/
def setUpdate (acc : List String) : List String → List String
  | [] => acc
  | g :: gs => setUpdate (setAdd acc g) gs

/-- One iteration of the `for sub, gs in self.subscriptions.items()` loop in
`groups_matching_topic` (lines 252-257). -/
def gmtStep (topic : String) (groups : List String) (p : String × List String) :
    List String :=
  if p.1 = topic then setUpdate groups p.2
  else if topic_matches_sub p.1 topic then setUpdate groups p.2
  else groups

/-- Embeds `ChannelsMQTTProxy.groups_matching_topic(topic)` (lines 250-258). -/
def groups_matching_topic (subs : Subscriptions) (topic : String) : List String :=
  subs.foldl (gmtStep topic) []

/-! ### Registry lemmas -/

theorem mem_setAdd (acc : List String) (x g : String) :
    g ∈ setAdd acc x ↔ g ∈ acc ∨ g = x := by
  by_cases h : x ∈ acc
  · rw [setAdd, if_pos h]
    constructor
    · exact Or.inl
    · rintro (hg | rfl)
      · exact hg
      · exact h
  · rw [setAdd, if_neg h]
    simp

theorem nodup_setAdd (acc : List String) (x : String) (h : acc.Nodup) :
    (setAdd acc x).Nodup := by
  by_cases hx : x ∈ acc
  · rw [setAdd, if_pos hx]; exact h
  · rw [setAdd, if_neg hx, List.nodup_append]
    exact ⟨h, List.nodup_singleton x, by
      intro a ha hb
      rw [List.mem_singleton] at hb
      exact hx (hb ▸ ha)⟩

theorem mem_setUpdate (gs : List String) (acc : List String) (g : String) :
    g ∈ setUpdate acc gs ↔ g ∈ acc ∨ g ∈ gs := by
  induction gs generalizing acc with
  | nil => simp [setUpdate]
  | cons x xs ih =>
    rw [setUpdate, ih, mem_setAdd]
    simp [or_assoc]

theorem nodup_setUpdate (gs : List String) (acc : List String) (h : acc.Nodup) :
    (setUpdate acc gs).Nodup := by
  induction gs generalizing acc with
  | nil => exact h
  | cons x xs ih => exact ih (setAdd acc x) (nodup_setAdd acc x h)

theorem mem_gmtStep (topic : String) (acc : List String)
    (p : String × List String) (g : String) :
    g ∈ gmtStep topic acc p ↔
      g ∈ acc ∨ ((p.1 = topic ∨ topic_matches_sub p.1 topic = true) ∧ g ∈ p.2) := by
  unfold gmtStep
  by_cases h1 : p.1 = topic
  · rw [if_pos h1, mem_setUpdate]
    simp [h1]
  · rw [if_neg h1]
    by_cases h2 : topic_matches_sub p.1 topic = true
    · rw [if_pos h2, mem_setUpdate]
      simp [h1, h2]
    · rw [Bool.not_eq_true] at h2
      rw [if_neg (by simp [h2])]
      simp [h1, h2]

theorem nodup_gmtStep (topic : String) (acc : List String)
    (p : String × List String) (h : acc.Nodup) : (gmtStep topic acc p).Nodup := by
  unfold gmtStep
  split
  · exact nodup_setUpdate p.2 acc h
  · split
    · exact nodup_setUpdate p.2 acc h
    · exact h

theorem mem_gmt_foldl (subs : Subscriptions) (topic : String) (acc : List String)
    (g : String) :
    g ∈ subs.foldl (gmtStep topic) acc ↔
      g ∈ acc ∨ ∃ f gs, (f, gs) ∈ subs ∧
        (f = topic ∨ topic_matches_sub f topic = true) ∧ g ∈ gs := by
  induction subs generalizing acc with
  | nil => simp
  | cons p ps ih =>
    rw [List.foldl_cons, ih, mem_gmtStep]
    constructor
    · rintro ((hg | ⟨hm, hp⟩) | ⟨f, gs, hmem, hm, hg⟩)
      · exact Or.inl hg
      · exact Or.inr ⟨p.1, p.2, by simp, hm, hp⟩
      · exact Or.inr ⟨f, gs, by simp [hmem], hm, hg⟩
    · rintro (hg | ⟨f, gs, hmem, hm, hg⟩)
      · exact Or.inl (Or.inl hg)
      · rcases List.mem_cons.mp hmem with hpf | hps
        · exact Or.inl (Or.inr ⟨by rw [← hpf]; exact hm, by rw [← hpf]; exact hg⟩)
        · exact Or.inr ⟨f, gs, hps, hm, hg⟩

theorem nodup_gmt_foldl (subs : Subscriptions) (topic : String) (acc : List String)
    (h : acc.Nodup) : (subs.foldl (gmtStep topic) acc).Nodup := by
  induction subs generalizing acc with
  | nil => exact h
  | cons p ps ih => exact ih (gmtStep topic acc p) (nodup_gmtStep topic acc p h)

/-- C1: the spec's unsubscribe contract is right and the code is wrong.  At
the failing input — subscribe("chat/room", "g1") then
unsubscribe("chat/room", "g1") — the handler raises an AttributeError
(`groups.delete` does not exist on a list), removes nothing, keeps the
registry entry for the filter, and issues no broker-level unsubscribe. -/
theorem c1_unsubscribe_after_subscribe_raises :
    subscribe [] "chat/room" "g1" =
      ([("chat/room", ["g1"])], [MqttAction.subscribe "chat/room"])
    ∧ unsubscribe [("chat/room", ["g1"])] "chat/room" "g1" =
      ([("chat/room", ["g1"])], [], some PyError.attributeError) := by
  constructor <;> rfl

/-- C2: the registry-invariant claim is right and the code is wrong.  The
only operation that could empty a filter's group set instead raises an
AttributeError before mutating anything, and no code path deletes a
`subscriptions` entry, so an emptied entry would never be removed: at the
failing input the entry survives intact and no broker unsubscribe is
issued. -/
theorem c2_empty_entry_never_deleted :
    unsubscribe [("sensors/temp", ["weather"])] "sensors/temp" "weather" =
      ([("sensors/temp", ["weather"])], [], some PyError.attributeError) := by
  rfl

/-- C3: for every registry state and topic t, groups_matching_topic t is
exactly the union, with no duplicate groups, of the group sets of all stored
filters f such that f equals t verbatim or matches(f, t) holds. -/
theorem c3_matching_groups_union (subs : Subscriptions) (topic : String) :
    (∀ g, g ∈ groups_matching_topic subs topic ↔
      ∃ f gs, (f, gs) ∈ subs ∧
        (f = topic ∨ topic_matches_sub f topic = true) ∧ g ∈ gs)
    ∧ (groups_matching_topic subs topic).Nodup := by
  constructor
  · intro g
    rw [groups_matching_topic, mem_gmt_foldl]
    simp
  · exact nodup_gmt_foldl subs topic [] List.nodup_nil

/-! ## MessageBridge: `_on_message` (lines 162-200), `publish` (lines 240-243)

`payload.decode("utf-8")` is Python's strict UTF-8 byte decoder; it raises
UnicodeDecodeError on invalid input and is NOT inside the try/except that
wraps only `json.loads`.  We implement the decoder concretely over byte
lists.  `json.loads` is an external library call, modelled as a parameter
`jsonLoads : String → Option J` (`none` standing for the caught
exception). -/

/-- A UTF-8 continuation byte (0x80-0xBF). -/
def isCont (b : Nat) : Bool := 0x80 ≤ b ∧ b ≤ 0xBF

/-- Strict UTF-8 decoding of a byte list, as performed by Python's
bytes.decode("utf-8"): rejects truncated sequences, stray continuation
bytes, overlong forms, surrogates and code points above U+10FFFF. -/
def utf8DecodeList : List Nat → Option (List Char)
  | [] => some []
  | b :: rest =>
    if b < 0x80 then
      (utf8DecodeList rest).map (fun cs => Char.ofNat b :: cs)
    else if 0xC2 ≤ b ∧ b ≤ 0xDF then
      match rest with
      | b1 :: rest1 =>
        if isCont b1 then
          (utf8DecodeList rest1).map
            (fun cs => Char.ofNat ((b - 0xC0) * 0x40 + (b1 - 0x80)) :: cs)
        else none
      | [] => none
    else if 0xE0 ≤ b ∧ b ≤ 0xEF then
      match rest with
      | b1 :: b2 :: rest2 =>
        if (if b = 0xE0 then 0xA0 ≤ b1 ∧ b1 ≤ 0xBF
            else if b = 0xED then 0x80 ≤ b1 ∧ b1 ≤ 0x9F
            else isCont b1 = true) ∧ isCont b2 = true then
          (utf8DecodeList rest2).map
            (fun cs => Char.ofNat ((b - 0xE0) * 0x1000 + (b1 - 0x80) * 0x40 + (b2 - 0x80)) :: cs)
        else none
      | _ => none
    else if 0xF0 ≤ b ∧ b ≤ 0xF4 then
      match rest with
      | b1 :: b2 :: b3 :: rest3 =>
        if (if b = 0xF0 then 0x90 ≤ b1 ∧ b1 ≤ 0xBF
            else if b = 0xF4 then 0x80 ≤ b1 ∧ b1 ≤ 0x8F
            else isCont b1 = true) ∧ isCont b2 = true ∧ isCont b3 = true then
          (utf8DecodeList rest3).map
            (fun cs => Char.ofNat
              ((b - 0xF0) * 0x40000 + (b1 - 0x80) * 0x1000 + (b2 - 0x80) * 0x40 + (b3 - 0x80)) :: cs)
        else none
      | _ => none
    else none

/-- Models `payload.decode("utf-8")` on a byte list, producing a string. -/
def utf8Decode (bs : List Nat) : Option String :=
  (utf8DecodeList bs).map (fun cs => String.mk cs)

/-- The `payload` field of the composed Channel message: the JSON document
when `json.loads` succeeds, otherwise the decoded text passed through raw. -/
inductive PayloadValue (J : Type) where
  | parsed (j : J)
  | raw (s : String)
deriving DecidableEq, Repr

/-- The event dict handed to `channel_layer.group_send`: a type tag
(`self.mqtt_channel_message`) and the message dict {topic, payload, qos}. -/
structure MqttEvent (J : Type) where
  type : String
  topic : String
  payload : PayloadValue J
  qos : Nat
deriving DecidableEq, Repr

/-- Embeds `ChannelsMQTTProxy._on_message(_client, topic, payload, qos, properties)`
(lines 162-200).  Result: (the registry afterwards, the `group_send`
fan-out calls attempted, the exception escaping the handler if any).
A replayed retained message (`properties["retain"] == 1`) is dropped before
the payload is touched; `payload.decode("utf-8")` raises out of the handler
on invalid UTF-8; a `json.loads` failure is caught and the decoded text is
sent raw; delivery failures inside `asyncio.gather` are caught and
logged, so they never escape. -/
def on_message (J : Type) (jsonLoads : String → Option J)
    (subs : Subscriptions) (mqttChannelMessage : String)
    (topic : String) (payload : List Nat) (qos : Nat) (retainProp : Nat) :
    Subscriptions × List (String × MqttEvent J) × Option PyError :=
  if retainProp = 1 then
    (subs, [], none)
  else
    match utf8Decode payload with
    | none => (subs, [], some PyError.unicodeDecodeError)
    | some s =>
      let pv : PayloadValue J :=
        match jsonLoads s with
        | some j => PayloadValue.parsed j
        | none => PayloadValue.raw s
      let event : MqttEvent J :=
        { type := mqttChannelMessage, topic := topic, payload := pv, qos := qos }
      (subs, (groups_matching_topic subs topic).map (fun grp => (grp, event)), none)

/-- The default argument values of `ChannelsMQTTProxy.publish` (line 240):
`qos=2, retain=True`. -/
def publishDefaultQos : Nat := 2

/-- Default `retain=True` of `ChannelsMQTTProxy.publish` (line 240). -/
def publishDefaultRetain : Bool := true

/-- Embeds `ChannelsMQTTProxy.publish(topic, payload, qos, retain)` (lines 240-243):
forwards directly to `self.mqtt.publish`. -/
def publish (topic payload : String) (qos : Nat) (retain : Bool) :
    List MqttAction :=
  [MqttAction.publish topic payload qos retain]

/-- A call of `publish` that supplies only topic and payload, so the
defaults apply. -/
def publishWithDefaults (topic payload : String) : List MqttAction :=
  publish topic payload publishDefaultQos publishDefaultRetain

/-! ## ConnectionManager: the `connect` retry loop (lines 91-144)

Each iteration of `while not self.mqtt.is_connected` ends in one of four
ways, determined by the external world: the ssl context construction raises
`ssl.SSLError`; `self.mqtt.connect` succeeds, raises `MQTTConnectError`
(broker-reported rejection), or raises any other exception (generic
transient failure).  We model the loop over a trace of such outcomes and
record the observable sleeps and disconnects. -/

/-- How one iteration of the connect loop ends. -/
inductive AttemptResult where
  | ok
  | mqttConnectError
  | sslError
  | otherError
deriving DecidableEq, Repr

/-- An observable action of the connect loop. -/
inductive ConnectEvent where
  | sleep (secs : Nat)
  | brokerDisconnect
deriving DecidableEq, Repr

/-- The short backoff `asyncio.sleep(1)` used for generic transient connect
failures and for ssl context failures (lines 126 and 143). -/
def shortBackoff : Nat := 1

/-- The long cooldown `asyncio.sleep(30)` used after an `MQTTConnectError`
(line 140). -/
def rejectionCooldown : Nat := 30

/-- The observable actions of the connect retry loop on a trace of
per-iteration outcomes: `MQTTConnectError` causes `self.mqtt.disconnect()`
then the 30 second cooldown; an ssl failure or any other exception causes
the 1 second backoff; success leaves the loop. -/
def connectEvents : List AttemptResult → List ConnectEvent
  | [] => []
  | AttemptResult.ok :: _ => []
  | AttemptResult.mqttConnectError :: rest =>
    ConnectEvent.brokerDisconnect :: ConnectEvent.sleep rejectionCooldown ::
      connectEvents rest
  | AttemptResult.sslError :: rest =>
    ConnectEvent.sleep shortBackoff :: connectEvents rest
  | AttemptResult.otherError :: rest =>
    ConnectEvent.sleep shortBackoff :: connectEvents rest

/-- C7: an inbound message whose delivery metadata has the replayed/retained
flag set is dropped: zero fan-out deliveries, no error, and the
subscription registry unchanged. -/
theorem c7_retained_replay_dropped (J : Type) (jsonLoads : String → Option J)
    (subs : Subscriptions) (mqttChannelMessage topic : String)
    (payload : List Nat) (qos : Nat) :
    on_message J jsonLoads subs mqttChannelMessage topic payload qos 1 =
      (subs, [], none) := rfl

/-- C8 counterexample: the byte payload [0xff] is not parseable as a JSON
document (it is not even valid UTF-8), the message is not retained, yet the
inbound handler fails: `payload.decode("utf-8")` raises UnicodeDecodeError
because only `json.loads` is wrapped in try/except. -/
theorem c8_invalid_utf8_payload_raises :
    on_message Unit (fun _ => none) [("t", ["g"])] "mqtt.message" "t" [255] 0 0 =
      ([("t", ["g"])], [], some PyError.unicodeDecodeError) := rfl

/-- C8 (amended): for every inbound non-retained message whose payload
decodes as UTF-8 text but cannot be parsed as JSON, the handler does not
fail: the decoded text is passed through raw in the fan-out event and
fan-out proceeds as normal. -/
theorem c8_non_json_text_sent_raw (J : Type) (jsonLoads : String → Option J)
    (subs : Subscriptions) (mqttChannelMessage topic : String)
    (payload : List Nat) (qos retainProp : Nat) (s : String)
    (hr : retainProp ≠ 1) (hd : utf8Decode payload = some s)
    (hj : jsonLoads s = none) :
    on_message J jsonLoads subs mqttChannelMessage topic payload qos retainProp =
      (subs,
        (groups_matching_topic subs topic).map
          (fun grp => (grp,
            { type := mqttChannelMessage, topic := topic,
              payload := PayloadValue.raw s, qos := qos })),
        none) := by
  unfold on_message
  rw [if_neg hr, hd]
  dsimp only []
  rw [hj]

/-- Closed witness for C8's amended theorem: the payload "hi" (bytes
[104, 105]) decodes, fails JSON parsing, and is fanned out raw to the one
matching group. -/
theorem c8_non_json_text_sent_raw_witness :
    (0 : Nat) ≠ 1 ∧ utf8Decode [104, 105] = some "hi" ∧
      on_message Unit (fun _ => none) [("t", ["g"])] "mqtt.message" "t"
          [104, 105] 0 0 =
        ([("t", ["g"])],
          [("g", { type := "mqtt.message", topic := "t",
                   payload := PayloadValue.raw "hi", qos := 0 })],
          none) :=
  ⟨by decide, by decide,
    by
      rw [c8_non_json_text_sent_raw Unit (fun _ => none) [("t", ["g"])]
        "mqtt.message" "t" [104, 105] 0 0 "hi" (by decide) (by decide) rfl]
      rfl⟩

/-- C9: in the connect retry loop, every generic transient failure is
followed by the short backoff and every broker-reported rejection by the
long cooldown (after closing the half-open connection); the two delays
differ, and three transient failures followed by one rejection give three
short sleeps then one disconnect-and-long-cooldown. -/
theorem c9_backoff_tiers :
    (∀ rest, connectEvents (AttemptResult.otherError :: rest) =
      ConnectEvent.sleep shortBackoff :: connectEvents rest)
    ∧ (∀ rest, connectEvents (AttemptResult.mqttConnectError :: rest) =
      ConnectEvent.brokerDisconnect :: ConnectEvent.sleep rejectionCooldown ::
        connectEvents rest)
    ∧ shortBackoff ≠ rejectionCooldown
    ∧ connectEvents [AttemptResult.otherError, AttemptResult.otherError,
        AttemptResult.otherError, AttemptResult.mqttConnectError,
        AttemptResult.ok] =
      [ConnectEvent.sleep 1, ConnectEvent.sleep 1, ConnectEvent.sleep 1,
        ConnectEvent.brokerDisconnect, ConnectEvent.sleep 30] :=
  ⟨fun _ => rfl, fun _ => rfl, by decide, rfl⟩

/-- C10: a publish call without explicit qos and retain arguments forwards
the message to the broker with qos = 2 and retain = true, and the inbound
path drops exactly such retained messages when the broker replays them. -/
theorem c10_publish_defaults_retained :
    (∀ topic payload : String,
      publishWithDefaults topic payload =
        [MqttAction.publish topic payload 2 true])
    ∧ (∀ (J : Type) (jsonLoads : String → Option J) (subs : Subscriptions)
        (mqttChannelMessage topic : String) (payload : List Nat) (qos : Nat),
      on_message J jsonLoads subs mqttChannelMessage topic payload qos 1 =
        (subs, [], none)) :=
  ⟨fun _ _ => rfl, fun _ _ _ _ _ _ _ => rfl⟩

/-- Closed witness for the universally quantified part of C4. -/
theorem c4_dollar_boundary_witness :
    ("$a" : String) ≠ "" ∧ ("b" : String) ≠ "" ∧
      topic_matches_sub "$a" "b" = false :=
  ⟨by decide, by decide,
    c4_dollar_boundary.1 "$a" "b" (by decide) (by decide) (by decide)⟩

/-- Closed witness for the universally quantified part of C6. -/
theorem c6_hash_absorbs_empty_remainder_witness :
    ("foo" : String) ≠ "" ∧ topic_matches_sub ("foo" ++ "/#") "foo" = true :=
  ⟨by decide, c6_hash_absorbs_empty_remainder.1 "foo" (by decide) (by decide)⟩

end ChanMqtt
